import Mathlib

/-!
Verification of the ProGlot AI history-lifecycle manager (src/app.py).

The embedding models the pure data and state-transition content of the
Streamlit script: the transcript store (save_history_safe,
load_history_safe, clear_current_history, get_history_filename), the
sliding-window selector, the session (re)initialization block, the
cold-start block, the user-turn block, the clear-history confirmation
check, and the export formatter.  External effects are made explicit:
the filesystem is a map from filename to file content, the Streamlit
session state is a record, and the generative-model gateway outcome is
an input to each step function.
-/

namespace ProGlot

/-- A part of an in-memory chat message.  The google.generativeai part
objects either expose a text attribute (modelled by `text`) or not, in
which case save_history_safe serializes the str form of the part
(modelled by `other` carrying that string).  A part dict read back from
JSON always carries a text key when written by save_history_safe; a
hand-edited dict missing the key is also modelled by `other`. -/
inductive Part where
  | text (t : String)
  | other (s : String)
deriving DecidableEq, Repr, Inhabited

/-- A chat message: a role string plus an ordered list of parts.  This
mirrors both the in-memory Content objects and the serialized dicts of
shape role / parts / text. -/
structure Message where
  role : String
  parts : List Part
deriving DecidableEq, Repr

/-- A transcript is an ordered list of messages. -/
abbrev Transcript := List Message

/-- src/app.py line 20: MAX_HISTORY_LENGTH = 20. -/
def MAX_HISTORY_LENGTH : Nat := 20

/-- One serialized part, as written by save_history_safe lines 51-55:
the text value when the part has a text attribute, else the str form of
the part. -/
def partToStored : Part → Part
  | .text t => .text t
  | .other s => .text s

/-- One serialized message (save_history_safe line 56): role preserved,
parts serialized in order. -/
def serializeMessage (m : Message) : Message :=
  { role := m.role, parts := m.parts.map partToStored }

/-- The serialized form of a whole in-memory history (save_history_safe
lines 46-56). -/
def serializeHistory (h : List Message) : List Message :=
  h.map serializeMessage

/-- Content of one on-disk history file: either text that parses as the
JSON list written by save_history_safe, or text on which json.load
raises JSONDecodeError (or any other read failure occurs). -/
inductive FileContent where
  | validJson (msgs : List Message)
  | corrupt
deriving DecidableEq, Repr

/-- The filesystem as seen by the app: filename to file content, `none`
meaning the file does not exist. -/
abbrev Disk := String → Option FileContent

/-- src/app.py lines 38-41: keep only alphanumeric characters of the
language code and wrap the result in the history filename pattern. -/
def get_history_filename (lang_code : String) : String :=
  "history_" ++ String.mk (lang_code.data.filter Char.isAlphanum) ++ ".json"

/-- src/app.py lines 43-59: serialize the in-memory history and write it
to the per-language file, overwriting prior content.  (The except branch
at lines 60-61 only logs; a failed write leaves the disk unchanged and
is not modelled further since no claim depends on it.) -/
def save_history_safe (d : Disk) (history : List Message) (lang_code : String) : Disk :=
  fun fn =>
    if fn = get_history_filename lang_code then
      some (.validJson (serializeHistory history))
    else d fn

/-- src/app.py lines 63-75: return the empty list when the file does not
exist (lines 66-67), the parsed list when it parses (line 70), and the
empty list when json.load raises JSONDecodeError (lines 71-72) or any
other read error occurs (lines 73-75).  The function is total: the three
match arms cover every possible file state, which embeds the fact that
load never raises. -/
def load_history_safe (d : Disk) (lang_code : String) : List Message :=
  match d (get_history_filename lang_code) with
  | none => []
  | some (.validJson msgs) => msgs
  | some .corrupt => []

/-- The Streamlit session state plus the filesystem: the mutable state
threaded through the script.  `chatSession = some h` models
st.session_state.chat_session holding a live genai ChatSession whose
history is `h`; `none` models the attribute being absent or None. -/
structure AppState where
  disk : Disk
  chatSession : Option (List Message)
  currentLang : Option String
  isInitialized : Bool

/-- src/app.py lines 77-86: best-effort delete of the per-language file
and reset of st.session_state.chat_session to None (the st.rerun then
re-enters the initialization block on the next script run). -/
def clear_current_history (st : AppState) (lang_code : String) : AppState :=
  { st with
    disk := fun fn => if fn = get_history_filename lang_code then none else st.disk fn,
    chatSession := none }

/-- The Python str.strip method on the confirmation text: drop leading
and trailing whitespace characters. -/
def pyStrip (s : String) : String :=
  String.mk (((s.data.dropWhile Char.isWhitespace).reverse.dropWhile Char.isWhitespace).reverse)

/-- The Python str.lower method on the confirmation text: lowercase each
character. -/
def pyLower (s : String) : String :=
  String.mk (s.data.map Char.toLower)

/-- src/app.py lines 125-129: the Confirm Delete button handler.  The
typed confirmation text is stripped and lowercased and compared to the
required literal; only on a match is clear_current_history called,
otherwise an error is shown and the state is untouched. -/
def clearHistoryAction (confirm_text : String) (lang_code : String) (st : AppState) : AppState :=
  if pyLower (pyStrip confirm_text) = "delete" then
    clear_current_history st lang_code
  else st

/-- src/app.py lines 200-206: the sliding-window logic.  When the loaded
history is longer than the bound keep the last maxLen elements (the
negative-index slice), otherwise keep it unchanged. -/
def window (t : List Message) (maxLen : Nat) : List Message :=
  if t.length > maxLen then t.drop (t.length - maxLen) else t

/-- src/app.py lines 195-216: the session (re)initialization block, run
when no chat session exists or the selected language changed.  It loads
the full transcript, windows it, seeds a fresh chat session with the
windowed history — falling back to an empty history when
model.start_chat raises (lines 208-212), an outcome supplied here as
`startChatFails` — records the bound language, and sets is_initialized
to whether the full loaded transcript is non-empty (line 216). -/
def initSession (st : AppState) (lang_code : String) (startChatFails : Bool) : AppState :=
  let past_history := load_history_safe st.disk lang_code
  let recent_history := window past_history MAX_HISTORY_LENGTH
  { st with
    chatSession := some (if startChatFails then [] else recent_history),
    currentLang := some lang_code,
    isInitialized := decide (past_history.length > 0) }

/-- Outcome of one send_message call on the model gateway: the assistant
text on success, or the raised exception (ServiceUnavailable,
ResourceExhausted, or any other exception) with its rendered text. -/
inductive GatewayResult where
  | ok (text : String)
  | serviceUnavailable (e : String)
  | resourceExhausted (e : String)
  | otherError (e : String)
deriving DecidableEq, Repr

/-- The rendered text of the exception carried by a failing gateway
outcome (what Python interpolates into the error banner). -/
def exnText : GatewayResult → String
  | .ok t => t
  | .serviceUnavailable e => e
  | .resourceExhausted e => e
  | .otherError e => e

/-- A user-role message as genai appends it to the session history when
send_message succeeds. -/
def userMsg (t : String) : Message :=
  { role := "user", parts := [.text t] }

/-- A model-role message holding the assistant response text. -/
def modelMsg (t : String) : Message :=
  { role := "model", parts := [.text t] }

/-- src/app.py line 237: the invisible cold-start instruction sent to
the model. -/
def coldStartPrompt (selected_label : String) : String :=
  "Start the lesson. Introduce yourself professionally in Turkish and ask for my "
    ++ selected_label ++ " proficiency level."

/-- src/app.py lines 230-243: the cold-start block.  Guarded by the
negated is_initialized flag.  On gateway success the session history
gains the prompt/response pair, is_initialized becomes true, and the
whole updated history is saved; on any exception the state is untouched
and an initialization-error banner carrying the rendered exception is
displayed (second component).  send_message appends to history only on
success. -/
def coldStartStep (st : AppState) (lang_code selected_label : String)
    (result : GatewayResult) : AppState × Option String :=
  if st.isInitialized then (st, none)
  else
    match result with
    | .ok text =>
        let newHistory :=
          (st.chatSession.getD []) ++ [userMsg (coldStartPrompt selected_label), modelMsg text]
        ({ st with
            chatSession := some newHistory,
            isInitialized := true,
            disk := save_history_safe st.disk newHistory lang_code }, none)
    | r => (st, some ("Initialization Error: " ++ exnText r))

/-- src/app.py line 264: the banner shown on ServiceUnavailable. -/
def serviceUnavailableMessage : String :=
  "⚠️ Service Unavailable: Google servers are temporarily down."

/-- src/app.py line 266: the banner shown on ResourceExhausted, pointing
at the export fallback. -/
def quotaExceededMessage : String :=
  "⚠️ API Quota Exceeded. Please use the \x27Export to Gemini Web\x27 feature in the sidebar."

/-- src/app.py lines 248-268: the user-input block.  Runs only when
st.chat_input produced truthy (non-empty) text.  On gateway success the
session history gains the user/response pair and the entire updated
history is saved to disk (line 261); on ServiceUnavailable,
ResourceExhausted, or any other exception the corresponding error
banner is displayed and nothing is saved or mutated. -/
def userTurnStep (st : AppState) (lang_code : String) (user_input : String)
    (result : GatewayResult) : AppState × Option String :=
  if user_input = "" then (st, none)
  else
    match result with
    | .ok text =>
        let newHistory := (st.chatSession.getD []) ++ [userMsg user_input, modelMsg text]
        ({ st with
            chatSession := some newHistory,
            disk := save_history_safe st.disk newHistory lang_code }, none)
    | .serviceUnavailable _ => (st, some serviceUnavailableMessage)
    | .resourceExhausted _ => (st, some quotaExceededMessage)
    | .otherError e => (st, some ("An error occurred: " ++ e))

/-- src/app.py lines 137-148: the export system-instruction template,
parameterized by the selected language display label. -/
def export_system_instruction (selected_label : String) : String :=
  "\nYou are \x27ProGlot\x27, an expert " ++ selected_label
    ++ " tutor for Turkish speakers.\nIMPORTANT: This is an ongoing lesson. Remember previous mistakes and progress.\n\nRULES:\n1. Explain concepts in Turkish, but provide examples strictly in "
    ++ selected_label
    ++ ".\n2. Correct mistakes gently and explain the \x27Why\x27 behind the rule.\n3. End every response with an interactive question or exercise.\n4. NEVER just provide the answer; keep the dialogue active.\n\nTONE: Professional, Patient, Encouraging.\n"

/-- The text the export loop takes from one serialized part (line 155):
its text value when present, the default empty string otherwise. -/
def partTextOrDefault : Part → String
  | .text t => t
  | .other _ => ""

/-- One line of the export body (src/app.py lines 153-156): the Model
label when the role equals model, else the Student label, then a colon
and the text of the first part.  `none` models the uncaught IndexError
Python raises when indexing position zero of a present but empty parts
list. -/
def export_line (m : Message) : Option String :=
  match m.parts with
  | [] => none
  | p :: _ =>
      some ((if m.role = "model" then "Model" else "Student")
        ++ ": " ++ partTextOrDefault p ++ "\n")

/-- The export loop over the full on-disk history (lines 153-156),
collecting one line per message, propagating the IndexError case. -/
def export_lines : List Message → Option (List String)
  | [] => some []
  | m :: ms =>
      match export_line m, export_lines ms with
      | some l, some ls => some (l :: ls)
      | _, _ => none

/-- src/app.py lines 149-158: the export formatter.  Loads the FULL
per-language transcript from disk (not the windowed memory), renders the
system-instruction block, the CHAT HISTORY marker, one line per message,
and the continuation cue.  It reads the disk and returns text only: no
state is written. -/
def export_text (d : Disk) (lang_code selected_label : String) : Option String :=
  match export_lines (load_history_safe d lang_code) with
  | none => none
  | some lines =>
      some ("SYSTEM INSTRUCTION:\n" ++ export_system_instruction selected_label
        ++ "\n\nCHAT HISTORY:\n" ++ String.join lines ++ "\n\n(Please continue from here)")

/-- Whether a part is a plain text part. -/
def isTextPart : Part → Bool
  | .text _ => true
  | .other _ => false

/-- A well-formed message in the sense of the spec data model: a role
plus an ordered list of text parts. -/
def wellFormedMessage (m : Message) : Prop :=
  ∀ p ∈ m.parts, isTextPart p = true

/-- A well-formed transcript: every message well formed. -/
def wellFormedTranscript (T : Transcript) : Prop :=
  ∀ m ∈ T, wellFormedMessage m

instance (m : Message) : Decidable (wellFormedMessage m) :=
  inferInstanceAs (Decidable (∀ p ∈ m.parts, isTextPart p = true))

instance (T : Transcript) : Decidable (wellFormedTranscript T) :=
  inferInstanceAs (Decidable (∀ m ∈ T, wellFormedMessage m))

/-! Concrete fixtures used by witness and counterexample theorems. -/

/-- A filesystem with no history files at all. -/
def emptyDisk : Disk := fun _ => none

/-- The app state before any script run, over an empty filesystem. -/
def freshState : AppState :=
  { disk := emptyDisk, chatSession := none, currentLang := none, isInitialized := false }

/-- A filesystem holding a single-message Italian history record. -/
def oneMsgDisk : Disk :=
  fun fn =>
    if fn = get_history_filename "It" then
      some (.validJson [userMsg "Ciao"])
    else none

/-- The app state before a script run, over the one-message
filesystem. -/
def oneMsgState : AppState :=
  { disk := oneMsgDisk, chatSession := none, currentLang := none, isInitialized := false }

/-- A filesystem whose Italian history record is corrupt. -/
def corruptDisk : Disk :=
  fun fn =>
    if fn = get_history_filename "It" then some .corrupt else none

/-- A numbered user message, for building transcripts of a given
length. -/
def numberedMsg (i : Nat) : Message :=
  { role := "user", parts := [.text (toString i)] }

/-- A transcript of 3 messages (inside the window). -/
def transcript3 : Transcript := (List.range 3).map numberedMsg

/-- A transcript of 21 messages (one beyond the window). -/
def transcript21 : Transcript := (List.range 21).map numberedMsg

/-- A filesystem holding a 21-message Italian history record, longer
than the window. -/
def manyMsgDisk : Disk :=
  fun fn =>
    if fn = get_history_filename "It" then some (.validJson transcript21) else none

/-- The app state before a script run, over the 21-message
filesystem. -/
def manyMsgState : AppState :=
  { disk := manyMsgDisk, chatSession := none, currentLang := none, isInitialized := false }

/-- A filesystem holding a two-message Italian history record. -/
def twoMsgDisk : Disk :=
  fun fn =>
    if fn = get_history_filename "It" then
      some (.validJson [userMsg "Ciao", modelMsg "Ciao! Come va?"])
    else none

/-! Shared helper lemmas. -/

/-- Reading back the file just written by save_history_safe yields the
serialized history, for the same language code. -/
theorem load_save (d : Disk) (h : List Message) (L : String) :
    load_history_safe (save_history_safe d h L) L = serializeHistory h := by
  simp [load_history_safe, save_history_safe]

/-- Serialization preserves the number of messages. -/
theorem serializeHistory_length (h : List Message) :
    (serializeHistory h).length = h.length := by
  simp [serializeHistory]

/-- Serializing a list of text parts is the identity. -/
theorem map_partToStored_eq_self (ps : List Part)
    (h : ∀ p ∈ ps, isTextPart p = true) : ps.map partToStored = ps := by
  induction ps with
  | nil => rfl
  | cons p ps ih =>
      cases p with
      | text t =>
          simp only [List.map_cons, partToStored]
          rw [ih (fun q hq => h q (List.mem_cons_of_mem _ hq))]
      | other s => simpa [isTextPart] using h (Part.other s) (List.mem_cons_self _ _)

/-- Serializing a well-formed message is the identity. -/
theorem serializeMessage_eq_self (m : Message) (hm : wellFormedMessage m) :
    serializeMessage m = m := by
  cases m with
  | mk role parts =>
      simp only [serializeMessage]
      rw [map_partToStored_eq_self parts hm]

/-- Serializing a well-formed transcript is the identity. -/
theorem serializeHistory_eq_self (T : Transcript) (hT : wellFormedTranscript T) :
    serializeHistory T = T := by
  induction T with
  | nil => rfl
  | cons m ms ih =>
      simp only [serializeHistory, List.map_cons]
      rw [serializeMessage_eq_self m (hT m (List.mem_cons_self _ _))]
      have := ih (fun x hx => hT x (List.mem_cons_of_mem _ hx))
      simpa [serializeHistory] using this

/-- The export loop renders exactly one line per message of its input —
role label, colon, first-part text, newline — when every message has a
non-empty parts list. -/
theorem export_lines_eq_map (ms : List Message) (h : ∀ m ∈ ms, m.parts ≠ []) :
    export_lines ms = some (ms.map fun m =>
      (if m.role = "model" then "Model" else "Student") ++ ": "
        ++ ((m.parts.head?.map partTextOrDefault).getD "") ++ "\n") := by
  induction ms with
  | nil => rfl
  | cons m ms ih =>
      cases hp : m.parts with
      | nil => exact absurd hp (h m (List.mem_cons_self _ _))
      | cons p ps =>
          have hrest := ih (fun x hx => h x (List.mem_cons_of_mem _ hx))
          simp [export_lines, export_line, hp, hrest]

/-- The cold-start block is a no-op once the initialized flag is set. -/
theorem coldStartStep_initialized (st : AppState) (lang label : String)
    (r : GatewayResult) (h : st.isInitialized = true) :
    coldStartStep st lang label r = (st, none) := by
  simp [coldStartStep, h]

/-! Claim theorems. -/

/-- Claim C2: the window selection is a pure function of the transcript:
for every transcript T with at most MAX_HISTORY_LENGTH = 20 messages the
window is T unchanged; for every longer T the window has length exactly
20 and equals the last 20 elements of T in their original order (it is
the reversed 20-element prefix of the reversal, and T is the dropped
prefix followed by the window). -/
theorem C2_window_selector (T : Transcript) :
    (T.length ≤ MAX_HISTORY_LENGTH → window T MAX_HISTORY_LENGTH = T) ∧
    (T.length > MAX_HISTORY_LENGTH →
      (window T MAX_HISTORY_LENGTH).length = MAX_HISTORY_LENGTH ∧
      window T MAX_HISTORY_LENGTH = (T.reverse.take MAX_HISTORY_LENGTH).reverse ∧
      T.take (T.length - MAX_HISTORY_LENGTH) ++ window T MAX_HISTORY_LENGTH = T) := by
  constructor
  · intro h
    simp [window, Nat.not_lt.mpr h]
  · intro h
    have hw : window T MAX_HISTORY_LENGTH = T.drop (T.length - MAX_HISTORY_LENGTH) := by
      simp [window, h]
    refine ⟨?_, ?_, ?_⟩
    · rw [hw, List.length_drop]
      have : MAX_HISTORY_LENGTH < T.length := h
      omega
    · rw [hw, List.take_reverse, List.reverse_reverse]
    · rw [hw, List.take_append_drop]

/-- Witness for C2 at concrete transcripts: a 3-message transcript is
kept whole, a 21-message transcript is windowed to 20 messages. -/
theorem C2_window_selector_witness :
    window transcript3 MAX_HISTORY_LENGTH = transcript3 ∧
    (window transcript21 MAX_HISTORY_LENGTH).length = MAX_HISTORY_LENGTH :=
  ⟨(C2_window_selector transcript3).1 (by decide),
   ((C2_window_selector transcript21).2 (by decide)).1⟩

/-- Claim C3: persistence round-trips: for every well-formed transcript
(each message a role plus an ordered list of text parts), every language
code, and every starting filesystem, loading right after saving returns
the transcript unchanged — serialization is lossless for role and
text. -/
theorem C3_save_load_roundtrip (d : Disk) (T : Transcript) (L : String)
    (hT : wellFormedTranscript T) :
    load_history_safe (save_history_safe d T L) L = T := by
  rw [load_save, serializeHistory_eq_self T hT]

/-- Witness for C3: a concrete two-message Italian exchange survives a
save/load round trip over the empty filesystem. -/
theorem C3_save_load_roundtrip_witness :
    load_history_safe
        (save_history_safe emptyDisk [userMsg "Ciao", modelMsg "Ciao! Come va?"] "It") "It"
      = [userMsg "Ciao", modelMsg "Ciao! Come va?"] :=
  C3_save_load_roundtrip emptyDisk [userMsg "Ciao", modelMsg "Ciao! Come va?"] "It"
    (by decide)

/-- Claim C4: for every language code, load returns the full persisted
transcript when the record holds valid serialization, and the empty
transcript when no record exists or the content is corrupt; the
function is total (defined on every possible file state), which embeds
the guarantee that malformed serialization is treated as no history
rather than raising. -/
theorem C4_load_total_or_empty (d : Disk) (L : String) :
    (d (get_history_filename L) = none → load_history_safe d L = []) ∧
    (d (get_history_filename L) = some .corrupt → load_history_safe d L = []) ∧
    (∀ T, d (get_history_filename L) = some (.validJson T) → load_history_safe d L = T) := by
  refine ⟨?_, ?_, ?_⟩
  · intro h; simp [load_history_safe, h]
  · intro h; simp [load_history_safe, h]
  · intro T h; simp [load_history_safe, h]

/-- Witness for C4: over concrete filesystems, a corrupt Italian record
loads as empty, a missing record loads as empty, and a valid one-message
record loads in full. -/
theorem C4_load_total_or_empty_witness :
    load_history_safe corruptDisk "It" = [] ∧
    load_history_safe emptyDisk "It" = [] ∧
    load_history_safe oneMsgDisk "It" = [userMsg "Ciao"] :=
  ⟨(C4_load_total_or_empty corruptDisk "It").2.1 (by decide),
   (C4_load_total_or_empty emptyDisk "It").1 (by decide),
   (C4_load_total_or_empty oneMsgDisk "It").2.2 [userMsg "Ciao"] (by decide)⟩

/-- Claim C7: for every confirmation input whose stripped lowercased
form differs from the literal delete, the clear-history action performs
no deletion and leaves the whole state (disk and active session)
unchanged; when the stripped lowercased form matches the literal, the
action is exactly clear_current_history for the bound language. -/
theorem C7_clear_requires_literal (confirm lang : String) (st : AppState) :
    (pyLower (pyStrip confirm) ≠ "delete" → clearHistoryAction confirm lang st = st) ∧
    (pyLower (pyStrip confirm) = "delete" →
      clearHistoryAction confirm lang st = clear_current_history st lang) := by
  constructor
  · intro h; simp [clearHistoryAction, h]
  · intro h; simp [clearHistoryAction, h]

/-- Witness for C7: a concrete non-matching confirmation leaves the
one-message state untouched, and a concrete matching confirmation (with
surrounding whitespace and capitals) invokes the deletion. -/
theorem C7_clear_requires_literal_witness :
    clearHistoryAction "no thanks" "It" oneMsgState = oneMsgState ∧
    clearHistoryAction "  DELETE " "It" oneMsgState = clear_current_history oneMsgState "It" :=
  ⟨(C7_clear_requires_literal "no thanks" "It" oneMsgState).1 (by decide),
   (C7_clear_requires_literal "  DELETE " "It" oneMsgState).2 (by decide)⟩

/-- Claim C8: if constructing the fresh model conversation seeded with
the windowed history fails (startChatFails), session initialization
falls back to a session with empty history while still completing the
whole operation: the language is bound, the initialized flag is still
computed from the full loaded transcript, and the disk is untouched. -/
theorem C8_start_chat_fallback (st : AppState) (lang : String) :
    (initSession st lang true).chatSession = some [] ∧
    (initSession st lang true).currentLang = some lang ∧
    (initSession st lang true).isInitialized
      = decide ((load_history_safe st.disk lang).length > 0) ∧
    (initSession st lang true).disk = st.disk := by
  refine ⟨?_, ?_, ?_, ?_⟩ <;> simp [initSession]

/-- Claim C5: for a fresh language with no record on disk, session
initialization leaves the initialized flag false; the automatic
cold-start turn then (a) on success flips the flag to true, displays no
error, and leaves an on-disk record of exactly 2 messages, after which
any further cold-start evaluation is a no-op (the turn fires exactly
once); and (b) on any gateway failure leaves the state unchanged — flag
still false, disk untouched — and surfaces the initialization error. -/
theorem C5_cold_start_lifecycle (st : AppState) (lang label greeting : String)
    (hfresh : st.disk (get_history_filename lang) = none) :
    (initSession st lang false).isInitialized = false ∧
    ((coldStartStep (initSession st lang false) lang label (.ok greeting)).1.isInitialized
        = true ∧
      (coldStartStep (initSession st lang false) lang label (.ok greeting)).2 = none ∧
      (load_history_safe
          (coldStartStep (initSession st lang false) lang label (.ok greeting)).1.disk
          lang).length = 2 ∧
      (∀ r, coldStartStep
          (coldStartStep (initSession st lang false) lang label (.ok greeting)).1 lang label r
        = ((coldStartStep (initSession st lang false) lang label (.ok greeting)).1, none))) ∧
    (∀ r, (∀ t, r ≠ .ok t) →
      coldStartStep (initSession st lang false) lang label r
        = (initSession st lang false, some ("Initialization Error: " ++ exnText r))) := by
  have hload : load_history_safe st.disk lang = [] := by
    simp [load_history_safe, hfresh]
  have hinit0 : (initSession st lang false).isInitialized = false := by
    simp [initSession, hload]
  have hsess0 : (initSession st lang false).chatSession = some [] := by
    simp [initSession, hload, window]
  refine ⟨hinit0, ⟨?_, ?_, ?_, ?_⟩, ?_⟩
  · simp [coldStartStep, hinit0]
  · simp [coldStartStep, hinit0]
  · simp [coldStartStep, hinit0, hsess0, load_save, serializeHistory_length]
  · intro r
    have h1 : (coldStartStep (initSession st lang false) lang label
        (.ok greeting)).1.isInitialized = true := by
      simp [coldStartStep, hinit0]
    exact coldStartStep_initialized _ lang label r h1
  · intro r hr
    cases r with
    | ok t => exact absurd rfl (hr t)
    | serviceUnavailable e => simp [coldStartStep, hinit0, exnText]
    | resourceExhausted e => simp [coldStartStep, hinit0, exnText]
    | otherError e => simp [coldStartStep, hinit0, exnText]

/-- Witness for C5 at a concrete fresh state: starting from the empty
filesystem and the Italian language, the successful cold start leaves a
2-message record, and a failing cold start surfaces the error. -/
theorem C5_cold_start_lifecycle_witness :
    (initSession freshState "It" false).isInitialized = false ∧
    (load_history_safe
        (coldStartStep (initSession freshState "It" false) "It" "Italian"
          (.ok "Merhaba!")).1.disk "It").length = 2 ∧
    coldStartStep (initSession freshState "It" false) "It" "Italian" (.otherError "boom")
      = (initSession freshState "It" false, some ("Initialization Error: " ++ "boom")) := by
  have h := C5_cold_start_lifecycle freshState "It" "Italian" "Merhaba!" (by decide)
  exact ⟨h.1, h.2.1.2.2.1,
    h.2.2 (.otherError "boom") (fun t hne => GatewayResult.noConfusion hne)⟩

/-- Claim C6: when the model gateway fails with quota exhaustion during
a (non-empty) user turn, the displayed message is the quota banner —
which references the Export to Gemini Web fallback — and the state,
in particular the filesystem, is returned unchanged: no save occurs on
this error path. -/
theorem C6_quota_exhaustion_turn (st : AppState) (lang input e : String)
    (hne : input ≠ "") :
    userTurnStep st lang input (.resourceExhausted e) = (st, some quotaExceededMessage) ∧
    (userTurnStep st lang input (.resourceExhausted e)).1.disk = st.disk ∧
    (∃ a b : String, quotaExceededMessage = a ++ "Export to Gemini Web" ++ b) := by
  have h : userTurnStep st lang input (.resourceExhausted e)
      = (st, some quotaExceededMessage) := by
    simp [userTurnStep, hne]
  refine ⟨h, by rw [h], ?_⟩
  exact ⟨"⚠️ API Quota Exceeded. Please use the \x27", "\x27 feature in the sidebar.",
    by decide⟩

/-- Witness for C6 at a concrete turn: the quota failure on the Ciao
turn over the one-message state displays the quota banner and leaves
the filesystem untouched. -/
theorem C6_quota_exhaustion_turn_witness :
    userTurnStep oneMsgState "It" "Ciao" (.resourceExhausted "429")
      = (oneMsgState, some quotaExceededMessage) ∧
    (userTurnStep oneMsgState "It" "Ciao" (.resourceExhausted "429")).1.disk
      = oneMsgState.disk :=
  ⟨(C6_quota_exhaustion_turn oneMsgState "It" "Ciao" "429" (by decide)).1,
   (C6_quota_exhaustion_turn oneMsgState "It" "Ciao" "429" (by decide)).2.1⟩

/-- Claim C10: the initialized flag is computed from the full on-disk
transcript regardless of whether seeding succeeded: when start_chat
fails but the loaded transcript is non-empty, the fallback session has
empty in-memory history yet the flag is true, so the cold-start block
is a no-op for that session. -/
theorem C10_fallback_skips_cold_start (st : AppState) (lang label : String)
    (r : GatewayResult) (hne : load_history_safe st.disk lang ≠ []) :
    (initSession st lang true).isInitialized = true ∧
    (initSession st lang true).chatSession = some [] ∧
    coldStartStep (initSession st lang true) lang label r
      = (initSession st lang true, none) := by
  have hpos : (load_history_safe st.disk lang).length > 0 := List.length_pos.mpr hne
  have hinit : (initSession st lang true).isInitialized = true := by
    simp [initSession, hpos]
  refine ⟨hinit, by simp [initSession], by simp [coldStartStep, hinit]⟩

/-- Witness for C10 at a concrete state: over the one-message Italian
record, a failed start_chat still yields an initialized session with
empty seeded history on which the cold-start block does nothing. -/
theorem C10_fallback_skips_cold_start_witness :
    (initSession oneMsgState "It" true).isInitialized = true ∧
    (initSession oneMsgState "It" true).chatSession = some [] ∧
    coldStartStep (initSession oneMsgState "It" true) "It" "Italian" (.ok "hi")
      = (initSession oneMsgState "It" true, none) :=
  C10_fallback_skips_cold_start oneMsgState "It" "Italian" (.ok "hi") (by decide)

/-- Claim C9: the export formatter is a pure function of the full
on-disk transcript (bypassing the window) and the language display
name: whenever every message of the loaded transcript has a first part,
its output is the fixed system-instruction block parameterized by the
display name, then the CHAT HISTORY marker, then one line per message
of the full transcript — Model or Student label, colon, first-part
text — then the fixed continuation cue; and any filesystem with the
same loaded transcript yields the same output (no dependence on other
state, no mutation). -/
theorem C9_export_formatter (d : Disk) (lang label : String)
    (hok : ∀ m ∈ load_history_safe d lang, m.parts ≠ []) :
    export_text d lang label
      = some ("SYSTEM INSTRUCTION:\n" ++ export_system_instruction label
          ++ "\n\nCHAT HISTORY:\n"
          ++ String.join ((load_history_safe d lang).map fun m =>
              (if m.role = "model" then "Model" else "Student") ++ ": "
                ++ ((m.parts.head?.map partTextOrDefault).getD "") ++ "\n")
          ++ "\n\n(Please continue from here)") ∧
    (∀ d2 : Disk, load_history_safe d2 lang = load_history_safe d lang →
      export_text d2 lang label = export_text d lang label) := by
  constructor
  · simp [export_text, export_lines_eq_map _ hok]
  · intro d2 h2
    simp [export_text, h2]

/-- Witness for C9 at a concrete filesystem: the export over the
two-message Italian record renders the instruction block, the marker,
the Student and Model lines, and the cue. -/
theorem C9_export_formatter_witness :
    export_text twoMsgDisk "It" "Italian"
      = some ("SYSTEM INSTRUCTION:\n" ++ export_system_instruction "Italian"
          ++ "\n\nCHAT HISTORY:\n"
          ++ String.join ((load_history_safe twoMsgDisk "It").map fun m =>
              (if m.role = "model" then "Model" else "Student") ++ ": "
                ++ ((m.parts.head?.map partTextOrDefault).getD "") ++ "\n")
          ++ "\n\n(Please continue from here)") :=
  (C9_export_formatter twoMsgDisk "It" "Italian" (by decide)).1

/-- Claim C1, amended: on every successful user turn the entire updated
in-memory session history — the windowed seed plus all messages
exchanged since — is serialized and written to the per-language record,
overwriting prior content, so the on-disk transcript afterwards has
exactly 2 more messages than the in-memory session history at the start
of the turn.  On the first turn after a load this is exactly 2 more
than the history loaded into the session (not 2 more than the full
pre-existing disk transcript), and after a truncating load the record
becomes the serialized last-window messages plus the new pair, so all
disk messages older than the window are dropped. -/
theorem C1_turn_persists_session_history :
    (∀ (st : AppState) (lang input resp : String) (h : List Message),
      st.chatSession = some h → input ≠ "" →
      (userTurnStep st lang input (.ok resp)).1.disk
          = save_history_safe st.disk (h ++ [userMsg input, modelMsg resp]) lang ∧
      load_history_safe (userTurnStep st lang input (.ok resp)).1.disk lang
          = serializeHistory (h ++ [userMsg input, modelMsg resp]) ∧
      (load_history_safe (userTurnStep st lang input (.ok resp)).1.disk lang).length
          = h.length + 2) ∧
    (∀ (st0 : AppState) (lang input resp : String), input ≠ "" →
      (load_history_safe
          (userTurnStep (initSession st0 lang false) lang input (.ok resp)).1.disk
          lang).length
        = (window (load_history_safe st0.disk lang) MAX_HISTORY_LENGTH).length + 2 ∧
      ((load_history_safe st0.disk lang).length > MAX_HISTORY_LENGTH →
        (load_history_safe
            (userTurnStep (initSession st0 lang false) lang input (.ok resp)).1.disk
            lang).length = MAX_HISTORY_LENGTH + 2 ∧
        load_history_safe
            (userTurnStep (initSession st0 lang false) lang input (.ok resp)).1.disk lang
          = serializeHistory
              ((load_history_safe st0.disk lang).drop
                  ((load_history_safe st0.disk lang).length - MAX_HISTORY_LENGTH)
                ++ [userMsg input, modelMsg resp]))) := by
  have main : ∀ (st : AppState) (lang input resp : String) (h : List Message),
      st.chatSession = some h → input ≠ "" →
      (userTurnStep st lang input (.ok resp)).1.disk
          = save_history_safe st.disk (h ++ [userMsg input, modelMsg resp]) lang ∧
      load_history_safe (userTurnStep st lang input (.ok resp)).1.disk lang
          = serializeHistory (h ++ [userMsg input, modelMsg resp]) ∧
      (load_history_safe (userTurnStep st lang input (.ok resp)).1.disk lang).length
          = h.length + 2 := by
    intro st lang input resp h hsess hne
    have hdisk : (userTurnStep st lang input (.ok resp)).1.disk
        = save_history_safe st.disk (h ++ [userMsg input, modelMsg resp]) lang := by
      simp [userTurnStep, hne, hsess]
    refine ⟨hdisk, ?_, ?_⟩
    · rw [hdisk, load_save]
    · rw [hdisk, load_save, serializeHistory_length]
      simp
  refine ⟨main, ?_⟩
  intro st0 lang input resp hne
  have hsess : (initSession st0 lang false).chatSession
      = some (window (load_history_safe st0.disk lang) MAX_HISTORY_LENGTH) := by
    simp [initSession]
  have h1 := main (initSession st0 lang false) lang input resp
    (window (load_history_safe st0.disk lang) MAX_HISTORY_LENGTH) hsess hne
  refine ⟨h1.2.2, ?_⟩
  intro hlong
  have hwin : window (load_history_safe st0.disk lang) MAX_HISTORY_LENGTH
      = (load_history_safe st0.disk lang).drop
          ((load_history_safe st0.disk lang).length - MAX_HISTORY_LENGTH) := by
    simp [window, hlong]
  have hwlen : (window (load_history_safe st0.disk lang) MAX_HISTORY_LENGTH).length
      = MAX_HISTORY_LENGTH :=
    ((C2_window_selector (load_history_safe st0.disk lang)).2 hlong).1
  constructor
  · rw [h1.2.2, hwlen]
  · rw [h1.2.1, hwin]

/-- Counterexample to C1 as stated: in a Ready Italian session whose
loaded history had 1 message, the second successful user turn leaves an
on-disk transcript of 5 messages, not 1 + 2 — the on-disk transcript
after a successful turn is not in general 2 more than the history that
was loaded into the session. -/
theorem C1_counterexample :
    (load_history_safe
        (userTurnStep
          (userTurnStep (initSession oneMsgState "It" false) "It" "Ciao" (.ok "Ciao!")).1
          "It" "Bene" (.ok "Ottimo!")).1.disk "It").length
      ≠ (window (load_history_safe oneMsgState.disk "It") MAX_HISTORY_LENGTH).length + 2 := by
  decide

/-- Witness for the amended C1 at concrete states: the first turn after
loading the one-message record leaves a 3-message record, and the first
turn after a truncating load of the 21-message record leaves a
22-message record. -/
theorem C1_turn_persists_session_history_witness :
    (load_history_safe
        (userTurnStep (initSession oneMsgState "It" false) "It" "Ciao" (.ok "Ciao!")).1.disk
        "It").length = [userMsg "Ciao"].length + 2 ∧
    (load_history_safe
        (userTurnStep (initSession manyMsgState "It" false) "It" "Ciao" (.ok "Ciao!")).1.disk
        "It").length = MAX_HISTORY_LENGTH + 2 :=
  ⟨(C1_turn_persists_session_history.1 (initSession oneMsgState "It" false) "It" "Ciao"
      "Ciao!" [userMsg "Ciao"] (by decide) (by decide)).2.2,
   ((C1_turn_persists_session_history.2 manyMsgState "It" "Ciao" "Ciao!" (by decide)).2
      (by decide)).1⟩

end ProGlot
